import Mathlib

/-!
Verification of the cricket match-scoring core of the cricheros repository.

The development shallowly embeds the over-management utilities
(`calculateNextPosition`, `shouldSwapBatsmen`, `isValidPosition`, `canAddBall`)
and the live-scoring session controller (`addScore`, `undoLastBall`,
`handleNewBowlerSelection`, `getAvailableBowlers`, and the
`recomputePanelsFromDb` statistics helpers) as executable Lean functions.
JavaScript numbers are modelled as `Int`; the JavaScript remainder operator
is modelled by `Int.tmod` (sign of the dividend, as in JS); nullable fields
become `Option`; the per-player stat dictionaries become total functions
defaulting to zero, mirroring the `(prev[id]?.field || 0)` reads.
-/

/-- Over/ball/innings position, from `OverPosition` in the over-management
module: `{ inning, over, ball }`. -/
structure OverPosition where
  inning : Int
  over : Int
  ball : Int
  deriving DecidableEq, Repr

/-- The five boolean transition signals returned by `calculateNextPosition`,
from the `TeamSwitch` interface. -/
structure TeamSwitch where
  shouldSwitchTeams : Bool
  shouldAskForNewBatsmen : Bool
  shouldAskForNewBowler : Bool
  isInningComplete : Bool
  isMatchComplete : Bool
  deriving DecidableEq, Repr

/-- Return type of `calculateNextPosition`: the next position plus signals. -/
structure NextPositionResult where
  nextPosition : OverPosition
  teamSwitch : TeamSwitch
  deriving DecidableEq, Repr

/-- `calculateNextPosition(currentPosition, totalOvers, runs)` from the
over-management module, translated statement by statement: increment the
ball; wrap the over when the ball passes 6; close the innings when the over
reaches `totalOvers`; clamp; then derive the five signals from the final
values.  The `runs` parameter is accepted but, as in the source, unused. -/
def calculateNextPosition (currentPosition : OverPosition) (totalOvers : Int)
    (runs : Int) : NextPositionResult :=
  let inning := currentPosition.inning
  let over := currentPosition.over
  let ball := currentPosition.ball
  let nextBall0 := ball + 1
  -- Check if over is complete
  let nextOver1 := if nextBall0 > 6 then over + 1 else over
  let nextBall1 := if nextBall0 > 6 then (1 : Int) else nextBall0
  -- Check if innings is complete (when over reaches totalOvers)
  let nextInning1 := if nextOver1 ≥ totalOvers then inning + 1 else inning
  let nextOver2 := if nextOver1 ≥ totalOvers then (0 : Int) else nextOver1
  let nextBall2 := if nextOver1 ≥ totalOvers then (1 : Int) else nextBall1
  -- Ensure we never exceed total overs in any innings
  let nextOver3 := if nextOver2 ≥ totalOvers then totalOvers - 1 else nextOver2
  let nextBall3 := if nextOver2 ≥ totalOvers then (6 : Int) else nextBall2
  { nextPosition := { inning := nextInning1, over := nextOver3, ball := nextBall3 }
    teamSwitch :=
      { shouldSwitchTeams := decide (nextBall3 = 1 ∧ nextOver3 > over)
        shouldAskForNewBatsmen := decide (nextInning1 > inning)
        shouldAskForNewBowler :=
          decide (nextBall3 = 1 ∧ nextOver3 > over) || decide (nextInning1 > inning)
        isInningComplete := decide (nextInning1 > inning)
        isMatchComplete := decide (nextInning1 > 2) } }

/-- `shouldSwapBatsmen(runs, isEndOfOver)`: always swap at end of over,
otherwise swap on odd runs.  The JS `runs % 2 === 1` test uses the JS
remainder, i.e. `Int.tmod`. -/
def shouldSwapBatsmen (runs : Int) (isEndOfOver : Bool) : Bool :=
  if isEndOfOver then true
  else decide (Int.tmod runs 2 = 1)

/-- `isValidPosition(position, totalOvers)` from the over-management module. -/
def isValidPosition (position : OverPosition) (totalOvers : Int) : Bool :=
  if position.inning < 1 ∨ position.inning > 2 then false
  else if position.over < 0 ∨ position.over ≥ totalOvers then false
  else if position.ball < 1 ∨ position.ball > 6 then false
  else true

/-- `canAddBall(position, totalOvers)` from the over-management module. -/
def canAddBall (position : OverPosition) (totalOvers : Int) : Bool :=
  if position.inning > 2 then false
  else if position.inning = 2 ∧ position.over ≥ totalOvers ∧ position.ball ≥ 6 then false
  else true

/-- The four extra kinds allowed by the `match_scores.extras_type` column. -/
inductive ExtraKind
  | wide
  | no_ball
  | bye
  | leg_bye
  deriving DecidableEq, Repr

/-- The six wicket kinds used by the scoring UI. -/
inductive WicketKind
  | bowled
  | caught
  | lbw
  | run_out
  | stumped
  | hit_wicket
  deriving DecidableEq, Repr

/-- The `scoringExtras` selection: `{ type, runs }`. -/
structure Extra where
  kind : ExtraKind
  runs : Int
  deriving DecidableEq, Repr

/-- The `scoringWicket` selection: `{ type, batsman_id, fielder_id? }`. -/
structure Wicket where
  kind : WicketKind
  batsman_id : String
  fielder_id : Option String
  deriving DecidableEq, Repr

/-- One persisted `match_scores` row (the ball event log entry). -/
structure Score where
  inning : Int
  over_number : Int
  ball_number : Int
  batsman_id : String
  bowler_id : String
  runs : Int
  extras_type : Option ExtraKind
  extras_runs : Int
  wicket_type : Option WicketKind
  wicket_batsman_id : Option String
  deriving DecidableEq, Repr

/-- Incremental per-batsman aggregate held in `batsmanStats`. -/
structure BatStats where
  runs : Int
  balls : Int
  deriving DecidableEq, Repr

/-- Incremental per-bowler aggregate held in `bowlerStats`. -/
structure BowlStats where
  balls : Int
  runs : Int
  wickets : Int
  deriving DecidableEq, Repr

/-- Match-level configuration consumed by the component: the overs limit and
the two rosters (`currentBattingTeam` / `currentBowlingTeam`, as player id
lists). -/
structure MatchConfig where
  totalOvers : Int
  battingTeam : List String
  bowlingTeam : List String
  deriving DecidableEq, Repr

/-- The component state of `LiveScoring` that the scoring state machine
reads and writes.  Display-only fields (toast text, `validationError`
message, the scratch dropdown values `newBatsmanId` / `selectedFielderId`)
are omitted; empty-string player ids model the unselected `''` state. -/
structure SessionState where
  newInning : Int
  newOver : Int
  newBall : Int
  selectedBatsman : String
  nonStriker : String
  selectedBowler : String
  previousBowler : Option String
  scoringRuns : Int
  scoringExtras : Option Extra
  scoringWicket : Option Wicket
  batsmanStats : String → BatStats
  bowlerStats : String → BowlStats
  showNewBatsmanSelector : Bool
  showBowlerSelector : Bool
  showFielderSelector : Bool
  showStartSecondInning : Bool
  wicketRequiringFielder : Option WicketKind
  scores : List Score
  lastScore : Option Score

/-- The typed error outcomes of the session operations (each corresponds to
an early `return` with a destructive toast / `setValidationError` in the
source, none of which records an event or moves the position). -/
inductive ScoringError
  | missingSelection
  | invalidRosterSelection
  | cannotAddBall
  | illegalScoringCombination
  | noRecentScore
  deriving DecidableEq, Repr

/-- Current `OverPosition` of a session (`{inning: newInning, over: newOver,
ball: newBall}` as built inside `addScore`). -/
def posOf (s : SessionState) : OverPosition :=
  { inning := s.newInning, over := s.newOver, ball := s.newBall }

/-- `scoringExtras?.runs || 0`. -/
def extrasRunsOf (s : SessionState) : Int :=
  match s.scoringExtras with
  | some e => e.runs
  | none => 0

/-- `totalRuns = scoringRuns + (scoringExtras?.runs || 0)`. -/
def totalRunsOf (s : SessionState) : Int :=
  s.scoringRuns + extrasRunsOf s

/-- `validateScoring` from `LiveScoring`: a wicket together with positive
bat runs is only valid for `run_out`; everything else is valid.  Returns
the `isValid` flag. -/
def validateScoring (s : SessionState) : Bool :=
  match s.scoringWicket with
  | some w => if s.scoringRuns > 0 ∧ w.kind ≠ WicketKind.run_out then false else true
  | none => true

/-- The condition guarding the incremental batsman-stat update in
`addScore`: `!scoringExtras || ['bye', 'leg_bye'].includes(scoringExtras.type)`. -/
def ballFacedUpdate (e : Option Extra) : Bool :=
  match e with
  | none => true
  | some x => decide (x.kind = ExtraKind.bye) || decide (x.kind = ExtraKind.leg_bye)

/-- `isBallFaced` from `recomputePanelsFromDb` (also the guard of the
batsman-stat reversal in `handleUndo`):
`!extrasType || extrasType === 'bye' || extrasType === 'leg_bye'`. -/
def isBallFaced (extrasType : Option ExtraKind) : Bool :=
  match extrasType with
  | none => true
  | some k => decide (k = ExtraKind.bye) || decide (k = ExtraKind.leg_bye)

/-- `isLegalDelivery` from `recomputePanelsFromDb`:
`extrasType !== 'wide' && extrasType !== 'no_ball'`. -/
def isLegalDelivery (extrasType : Option ExtraKind) : Bool :=
  decide (extrasType ≠ some ExtraKind.wide) && decide (extrasType ≠ some ExtraKind.no_ball)

/-- `isCreditedWicket` from `recomputePanelsFromDb`: a wicket of kind
bowled/caught/lbw/stumped/hit_wicket (run_out is not credited to the bowler). -/
def isCreditedWicket (wicketType : Option WicketKind) : Bool :=
  match wicketType with
  | none => false
  | some k =>
    decide (k = WicketKind.bowled ∨ k = WicketKind.caught ∨ k = WicketKind.lbw ∨
      k = WicketKind.stumped ∨ k = WicketKind.hit_wicket)

/-- The `match_scores` row inserted by `addScore` for the current selection. -/
def mkScore (s : SessionState) : Score :=
  { inning := s.newInning
    over_number := s.newOver
    ball_number := s.newBall
    batsman_id := s.selectedBatsman
    bowler_id := s.selectedBowler
    runs := s.scoringRuns
    extras_type := s.scoringExtras.map (fun e => e.kind)
    extras_runs := extrasRunsOf s
    wicket_type := s.scoringWicket.map (fun w => w.kind)
    wicket_batsman_id := s.scoringWicket.map (fun w => w.batsman_id) }

/-- First effect of the successful tail of `addScore`: insert the
`match_scores` row (appending it to the log and remembering it for undo)
and move the position to the `calculateNextPosition` result, as done by the
insert + `onPositionUpdate` calls. -/
def recordBall (cfg : MatchConfig) (s : SessionState) : SessionState :=
  { s with scores := s.scores ++ [mkScore s]
           lastScore := some (mkScore s)
           newInning :=
             (calculateNextPosition (posOf s) cfg.totalOvers (totalRunsOf s)).nextPosition.inning
           newOver :=
             (calculateNextPosition (posOf s) cfg.totalOvers (totalRunsOf s)).nextPosition.over
           newBall :=
             (calculateNextPosition (posOf s) cfg.totalOvers (totalRunsOf s)).nextPosition.ball }

/-- Second effect: swap striker and non-striker when `shouldSwapBatsmen`
says so (`isEndOfOver` being `teamSwitch.shouldSwitchTeams`).  The swapped
values are the entry-state ones, mirroring the stale closure reads of the
React state variables within a single `addScore` call. -/
def swapStage (cfg : MatchConfig) (s : SessionState) : SessionState :=
  if shouldSwapBatsmen (totalRunsOf s)
      (calculateNextPosition (posOf s) cfg.totalOvers (totalRunsOf s)).teamSwitch.shouldSwitchTeams then
    { recordBall cfg s with selectedBatsman := s.nonStriker, nonStriker := s.selectedBatsman }
  else recordBall cfg s

/-- The `teamSwitch.isInningComplete` branch of `addScore`: open the
start-second-inning card, close the selectors, record the previous bowler
and clear all three player selections. -/
def inningsCompleteStage (s s2 : SessionState) : SessionState :=
  { s2 with showStartSecondInning := true
            showBowlerSelector := false
            showNewBatsmanSelector := false
            previousBowler := some s.selectedBowler
            selectedBatsman := ""
            nonStriker := ""
            selectedBowler := "" }

/-- The `teamSwitch.shouldSwitchTeams` (end of over) branch of `addScore`:
open the bowler selector, record the previous bowler and clear the bowler
selection. -/
def overCompleteStage (s s2 : SessionState) : SessionState :=
  { s2 with showBowlerSelector := true
            previousBowler := some s.selectedBowler
            selectedBowler := "" }

/-- The form reset performed at the end of a normal delivery (and in the
match-complete branch): clear runs, extras and wicket selections. -/
def resetFormStage (s2 : SessionState) : SessionState :=
  { s2 with scoringRuns := 0, scoringExtras := none, scoringWicket := none }

/-- The incremental batsman-stat update of `addScore`, applied only when
the delivery has no extra or a bye / leg-bye extra. -/
def batStatsStage (s s2 : SessionState) : SessionState :=
  if ballFacedUpdate s.scoringExtras then
    { s2 with batsmanStats := fun pid =>
        if pid = s.selectedBatsman then
          { runs := (s2.batsmanStats pid).runs + s.scoringRuns
            balls := (s2.batsmanStats pid).balls + 1 }
        else s2.batsmanStats pid }
  else s2

/-- The incremental bowler-stat update of `addScore`: one ball on every
delivery, conceding bat runs plus all extra runs, one wicket for any
wicket kind. -/
def bowlStatsStage (s s3 : SessionState) : SessionState :=
  { s3 with bowlerStats := fun pid =>
      if pid = s.selectedBowler then
        { balls := (s3.bowlerStats pid).balls + 1
          runs := (s3.bowlerStats pid).runs + (s.scoringRuns + extrasRunsOf s)
          wickets := (s3.bowlerStats pid).wickets + (if s.scoringWicket.isSome then 1 else 0) }
      else s3.bowlerStats pid }

/-- The wicket dispatch at the end of `addScore`: fielder-requiring kinds
open the fielder selector, other non-run-out kinds open the new-batsman
selector, and otherwise the form resets. -/
def wicketStage (s s4 : SessionState) : SessionState :=
  match s.scoringWicket with
  | some w =>
    if w.kind = WicketKind.caught ∨ w.kind = WicketKind.stumped ∨
        w.kind = WicketKind.run_out then
      { s4 with wicketRequiringFielder := some w.kind, showFielderSelector := true }
    else if w.kind ≠ WicketKind.run_out then
      { s4 with showNewBatsmanSelector := true }
    else
      resetFormStage s4
  | none =>
    resetFormStage s4

/-- The successful tail of `addScore` (everything after the validations and
the database insert), translated in source order: append the event, advance
the position through `calculateNextPosition`, swap the batsmen when
`shouldSwapBatsmen` says so, then branch — innings complete, end of over,
match complete, otherwise update the incremental stats and dispatch on the
wicket. -/
def applyScore (cfg : MatchConfig) (s : SessionState) : SessionState :=
  if (calculateNextPosition (posOf s) cfg.totalOvers (totalRunsOf s)).teamSwitch.isInningComplete then
    inningsCompleteStage s (swapStage cfg s)
  else if (calculateNextPosition (posOf s) cfg.totalOvers (totalRunsOf s)).teamSwitch.shouldSwitchTeams then
    overCompleteStage s (swapStage cfg s)
  else if (calculateNextPosition (posOf s) cfg.totalOvers (totalRunsOf s)).teamSwitch.isMatchComplete then
    resetFormStage (swapStage cfg s)
  else
    wicketStage s (bowlStatsStage s (batStatsStage s (swapStage cfg s)))

/-- `addScore` from `LiveScoring` (part_003 variant): the guard sequence in
source order — missing selections, roster membership, `canAddBall`,
`validateScoring` — each failing guard returns its typed error without
recording an event or touching the session; otherwise the successful tail
`applyScore` runs. -/
def addScore (cfg : MatchConfig) (s : SessionState) : Except ScoringError SessionState :=
  if s.selectedBatsman = "" ∨ s.nonStriker = "" ∨ s.selectedBowler = "" then
    Except.error ScoringError.missingSelection
  else if ¬ (s.selectedBatsman ∈ cfg.battingTeam ∧ s.nonStriker ∈ cfg.battingTeam) then
    Except.error ScoringError.invalidRosterSelection
  else if ¬ (s.selectedBowler ∈ cfg.bowlingTeam) then
    Except.error ScoringError.invalidRosterSelection
  else if ¬ (canAddBall (posOf s) cfg.totalOvers = true) then
    Except.error ScoringError.cannotAddBall
  else if ¬ (validateScoring s = true) then
    Except.error ScoringError.illegalScoringCombination
  else
    Except.ok (applyScore cfg s)

/-- `handleUndo` from `LiveScoring`: requires a recorded last score, deletes
that row, reverses the stat contributions with the `Math.max(0, ...)`
clamps, closes every selector sub-state, resets the scoring form, and
leaves the position fields untouched. -/
def undoLastBall (s : SessionState) : Except ScoringError SessionState :=
  match s.lastScore with
  | none => Except.error ScoringError.noRecentScore
  | some sc =>
    let s1 := { s with scores := s.scores.dropLast }
    let s2 := if isBallFaced sc.extras_type then
        { s1 with batsmanStats := fun pid =>
            if pid = sc.batsman_id then
              { runs := max 0 ((s1.batsmanStats pid).runs - sc.runs)
                balls := max 0 ((s1.batsmanStats pid).balls - 1) }
            else s1.batsmanStats pid }
      else s1
    let bowlerRuns := sc.runs + sc.extras_runs
    let bowlerWickets : Int := if sc.wicket_type.isSome then 1 else 0
    let s3 := { s2 with bowlerStats := fun pid =>
        if pid = sc.bowler_id then
          { balls := max 0 ((s2.bowlerStats pid).balls - 1)
            runs := max 0 ((s2.bowlerStats pid).runs - bowlerRuns)
            wickets := max 0 ((s2.bowlerStats pid).wickets - bowlerWickets) }
        else s2.bowlerStats pid }
    Except.ok { s3 with showNewBatsmanSelector := false
                        showBowlerSelector := false
                        showFielderSelector := false
                        scoringRuns := 0
                        scoringExtras := none
                        scoringWicket := none
                        wicketRequiringFielder := none
                        lastScore := none }

/-- `handleNewBowlerSelection`: confirming the bowler chosen in the
end-of-over dialog records them as `previousBowler`, closes the dialog and
resets the form. -/
def handleNewBowlerSelection (s : SessionState) : Except ScoringError SessionState :=
  if s.selectedBowler = "" then Except.error ScoringError.missingSelection
  else
    Except.ok { s with previousBowler := some s.selectedBowler
                       showBowlerSelector := false
                       scoringRuns := 0
                       scoringExtras := none
                       scoringWicket := none }

/-- `getAvailableBowlers`: the candidate list for the bowler dialog, the
bowling roster minus the recorded `previousBowler`. -/
def getAvailableBowlers (bowlersList : List String) (s : SessionState) : List String :=
  bowlersList.filter (fun pid => decide (¬ (s.previousBowler = some pid)))

/-- Batsman aggregates recomputed from the persisted rows of one innings,
as in `recomputePanelsFromDb`: balls = rows for the batsman passing
`isBallFaced`; runs = sum of `runs` over all the batsman's rows. -/
def recomputeBatsmanStats (scores : List Score) (inning : Int) (pid : String) : BatStats :=
  let mine := scores.filter (fun sc => decide (sc.inning = inning ∧ sc.batsman_id = pid))
  { runs := (mine.map (fun sc => sc.runs)).sum
    balls := ((mine.filter (fun sc => isBallFaced sc.extras_type)).length : Int) }

/-- Bowler aggregates recomputed from the persisted rows of one innings, as
in `recomputePanelsFromDb`: balls count only legal deliveries; runs add the
extras only for wide/no_ball; wickets count only credited kinds. -/
def recomputeBowlerStats (scores : List Score) (inning : Int) (pid : String) : BowlStats :=
  let mine := scores.filter (fun sc => decide (sc.inning = inning ∧ sc.bowler_id = pid))
  { balls := ((mine.filter (fun sc => isLegalDelivery sc.extras_type)).length : Int)
    runs := (mine.map (fun sc =>
        sc.runs +
          (if sc.extras_type = some ExtraKind.wide ∨ sc.extras_type = some ExtraKind.no_ball
            then sc.extras_runs else 0))).sum
    wickets := ((mine.filter (fun sc => isCreditedWicket sc.wicket_type)).length : Int) }

/-- Position trace of an innings: start at over 0 ball 1 of innings `i` and
advance once per delivery through `calculateNextPosition`, delivery `k`
carrying `f k` runs. -/
def posAfter (totalOvers : Int) (i : Int) (f : Nat → Int) : Nat → OverPosition
  | 0 => { inning := i, over := 0, ball := 1 }
  | k + 1 => (calculateNextPosition (posAfter totalOvers i f k) totalOvers (f k)).nextPosition

/-- The scoring inputs the UI sets on a single delivery before `addScore`. -/
structure BallInput where
  runs : Int
  extra : Option Extra
  wicket : Option Wicket
  deriving DecidableEq, Repr

/-- Set the scoring form for one delivery and submit it through `addScore`. -/
def submitBall (cfg : MatchConfig) (s : SessionState) (b : BallInput) :
    Except ScoringError SessionState :=
  addScore cfg { s with scoringRuns := b.runs, scoringExtras := b.extra, scoringWicket := b.wicket }

/-- Submit a sequence of deliveries, stopping at the first error. -/
def applyBalls (cfg : MatchConfig) (s : SessionState) :
    List BallInput → Except ScoringError SessionState
  | [] => Except.ok s
  | b :: rest => (submitBall cfg s b).bind (fun s2 => applyBalls cfg s2 rest)

/-- A fresh session at innings 1, over 0, ball 1 with the given players
selected, empty stats and an empty event log. -/
def initialSession (striker other bowler : String) : SessionState :=
  { newInning := 1
    newOver := 0
    newBall := 1
    selectedBatsman := striker
    nonStriker := other
    selectedBowler := bowler
    previousBowler := none
    scoringRuns := 0
    scoringExtras := none
    scoringWicket := none
    batsmanStats := fun _ => { runs := 0, balls := 0 }
    bowlerStats := fun _ => { balls := 0, runs := 0, wickets := 0 }
    showNewBatsmanSelector := false
    showBowlerSelector := false
    showFielderSelector := false
    showStartSecondInning := false
    wicketRequiringFielder := none
    scores := []
    lastScore := none }

/-- A dot ball: no runs, no extra, no wicket. -/
def dotBall : BallInput := { runs := 0, extra := none, wicket := none }

/-- A two-over demonstration match: batting side A, B, C and bowling side
X, Y. -/
def demoConfig : MatchConfig :=
  { totalOvers := 2, battingTeam := ["A", "B", "C"], bowlingTeam := ["X", "Y"] }

/-- A fresh demonstration session: A on strike, B at the other end, X
bowling. -/
def demoSession : SessionState := initialSession "A" "B" "X"

/-- A wide with the mandatory one extra run. -/
def wideBall : BallInput :=
  { runs := 0, extra := some { kind := ExtraKind.wide, runs := 1 }, wicket := none }

/-- A no-ball with the mandatory one extra run. -/
def noBallDelivery : BallInput :=
  { runs := 0, extra := some { kind := ExtraKind.no_ball, runs := 1 }, wicket := none }

/-- A bowled dismissal of batsman B without runs. -/
def bowledWicketB : BallInput :=
  { runs := 0, extra := none, wicket := some { kind := WicketKind.bowled, batsman_id := "B", fielder_id := none } }

/-- Six dot balls from the start of the demonstration match: the complete
first over. -/
def firstOverTrace : Except ScoringError SessionState :=
  applyBalls demoConfig demoSession (List.replicate 6 dotBall)

/-- After the first over, pick `Y` in the bowler dialog and confirm. -/
def secondOverResumed : Except ScoringError SessionState :=
  firstOverTrace.bind (fun s => handleNewBowlerSelection { s with selectedBowler := "Y" })

/-- The full two-over scenario: eleven dot balls and a bowled wicket on the
twelfth delivery. -/
def twoOverTrace : Except ScoringError SessionState :=
  secondOverResumed.bind (fun s =>
    applyBalls demoConfig s (List.replicate 5 dotBall ++ [bowledWicketB]))

/-- The fresh session about to record a wide. -/
def wideSession : SessionState :=
  { demoSession with scoringExtras := some { kind := ExtraKind.wide, runs := 1 } }

/-- The fresh session about to record a no-ball. -/
def noBallSession : SessionState :=
  { demoSession with scoringExtras := some { kind := ExtraKind.no_ball, runs := 1 } }

/-- A session standing at the last ball of the first over. -/
def lastBallSession : SessionState := { demoSession with newBall := 6 }

/-- A bowled wicket declared together with two bat runs (illegal). -/
def bowledRunsSession : SessionState :=
  { demoSession with
    scoringRuns := 2
    scoringWicket := some { kind := WicketKind.bowled, batsman_id := "A", fielder_id := none } }

/-- A clean bowled wicket with zero runs (legal). -/
def bowledCleanSession : SessionState :=
  { demoSession with
    scoringWicket := some { kind := WicketKind.bowled, batsman_id := "A", fielder_id := none } }

/-- A run-out with two completed runs (legal). -/
def runOutRunsSession : SessionState :=
  { demoSession with
    scoringRuns := 2
    scoringWicket := some { kind := WicketKind.run_out, batsman_id := "A", fielder_id := none } }

/-! ## Lemmas about the position tracker -/

/-- Advancing from a mid-over ball (ball + 1 still at most 6) inside the
overs limit keeps the innings and over and moves the ball on by one. -/
lemma calcNext_pos_mid (i q b T runs : Int) (hb : b + 1 ≤ 6) (ho : q < T) :
    (calculateNextPosition { inning := i, over := q, ball := b } T runs).nextPosition =
      { inning := i, over := q, ball := b + 1 } := by
  simp only [calculateNextPosition]
  split_ifs <;> first | rfl | omega

/-- Advancing from ball 6 of a non-final over moves to ball 1 of the next
over in the same innings. -/
lemma calcNext_pos_overEnd (i q b T runs : Int) (hb : b + 1 > 6) (ho : q + 1 < T) :
    (calculateNextPosition { inning := i, over := q, ball := b } T runs).nextPosition =
      { inning := i, over := q + 1, ball := 1 } := by
  simp only [calculateNextPosition]
  split_ifs <;> first | rfl | omega

/-- Advancing from ball 6 of the final over increments the innings and
resets the position to over 0 ball 1. -/
lemma calcNext_pos_inningsEnd (i q b T runs : Int) (hb : b + 1 > 6) (ho : q + 1 ≥ T)
    (hT : 1 ≤ T) :
    (calculateNextPosition { inning := i, over := q, ball := b } T runs).nextPosition =
      { inning := i + 1, over := 0, ball := 1 } := by
  simp only [calculateNextPosition]
  split_ifs <;> first | rfl | omega

/-- The inning-complete signal is raised exactly when the over counter,
after a possible over wrap, reaches the overs limit. -/
lemma calcNext_inningComplete (i q b T runs : Int) :
    ((calculateNextPosition { inning := i, over := q, ball := b } T runs).teamSwitch.isInningComplete
      = true) ↔ (if b + 1 > 6 then q + 1 else q) ≥ T := by
  simp only [calculateNextPosition]
  split_ifs <;> simp <;> omega

/-- Closed form of the position trace: while fewer than `6 * T` deliveries
have been bowled, delivery `k` of the innings stands at over `k / 6`,
ball `k % 6 + 1`. -/
lemma posAfter_closed (T : Nat) (hT : 1 ≤ T) (i : Int) (f : Nat → Int) :
    ∀ k : Nat, k < 6 * T →
      posAfter (T : Int) i f k =
        { inning := i, over := ((k / 6 : Nat) : Int), ball := ((k % 6 : Nat) : Int) + 1 }
  | 0, _ => by simp [posAfter]
  | (k + 1), hk => by
    have ih := posAfter_closed T hT i f k (by omega)
    rw [posAfter, ih]
    by_cases h5 : k % 6 = 5
    · rw [calcNext_pos_overEnd i _ _ _ _ (by omega) (by omega)]
      simp only [OverPosition.mk.injEq, true_and]
      constructor <;> omega
    · rw [calcNext_pos_mid i _ _ _ _ (by omega) (by omega)]
      simp only [OverPosition.mk.injEq, true_and]
      constructor <;> omega

/-! ## Claim theorems: position tracker -/

/-- C2: for every totalOvers ≥ 1, starting an innings at over 0 ball 1 and
repeatedly advancing through `calculateNextPosition` (one call per legal
delivery, with an arbitrary runs value on each), the `isInningComplete`
signal is raised on the `totalOvers * 6`-th delivery and on no earlier
delivery of the innings. -/
theorem inning_complete_exactly_at_final_delivery (T : Nat) (hT : 1 ≤ T) (i : Int)
    (f : Nat → Int) (n : Nat) (h1 : 1 ≤ n) (h2 : n ≤ 6 * T) :
    ((calculateNextPosition (posAfter (T : Int) i f (n - 1)) (T : Int)
        (f (n - 1))).teamSwitch.isInningComplete = true) ↔ n = 6 * T := by
  rw [posAfter_closed T hT i f (n - 1) (by omega), calcNext_inningComplete]
  split_ifs <;> omega

/-- Witness for C2 at totalOvers = 1: the 6th delivery raises the
inning-complete signal, matching 6 = 6 * 1. -/
theorem inning_complete_exactly_at_final_delivery_witness :
    ((calculateNextPosition (posAfter ((1 : Nat) : Int) 1 (fun _ => 0) (6 - 1)) ((1 : Nat) : Int)
        ((fun _ => (0 : Int)) (6 - 1))).teamSwitch.isInningComplete = true) ↔ 6 = 6 * 1 :=
  inning_complete_exactly_at_final_delivery 1 (by decide) 1 (fun _ => 0) 6 (by decide) (by decide)

/-- C8: `shouldSwapBatsmen(runs, isEndOfOver)` is true exactly when the
delivery ends the over or the (non-negative) run total is odd. -/
theorem swap_iff_end_of_over_or_odd_runs (runs : Int) (isEndOfOver : Bool)
    (h : 0 ≤ runs) :
    shouldSwapBatsmen runs isEndOfOver = true ↔ (isEndOfOver = true ∨ runs % 2 = 1) := by
  cases isEndOfOver <;> simp [shouldSwapBatsmen]
  rw [Int.tmod_eq_emod h (by norm_num)]

/-- Witness for C8 at runs = 3 off a mid-over delivery: the batsmen swap. -/
theorem swap_iff_end_of_over_or_odd_runs_witness :
    shouldSwapBatsmen 3 false = true ↔ (false = true ∨ (3 : Int) % 2 = 1) :=
  swap_iff_end_of_over_or_odd_runs 3 false (by decide)

/-- C9: advancing any in-range position (inning in [1,2], over in
[0, totalOvers), ball in [1,6]) under any totalOvers ≥ 1 and any runs value
yields a position whose over is again in [0, totalOvers) and whose ball is
again in [1,6]. -/
theorem advance_preserves_position_ranges (p : OverPosition) (totalOvers runs : Int)
    (hT : 1 ≤ totalOvers) (hi1 : 1 ≤ p.inning) (hi2 : p.inning ≤ 2)
    (ho0 : 0 ≤ p.over) (hoT : p.over < totalOvers) (hb1 : 1 ≤ p.ball) (hb6 : p.ball ≤ 6) :
    0 ≤ (calculateNextPosition p totalOvers runs).nextPosition.over ∧
      (calculateNextPosition p totalOvers runs).nextPosition.over < totalOvers ∧
      1 ≤ (calculateNextPosition p totalOvers runs).nextPosition.ball ∧
      (calculateNextPosition p totalOvers runs).nextPosition.ball ≤ 6 := by
  simp only [calculateNextPosition]
  split_ifs <;> simp <;> omega

/-- Witness for C9 at the last ball of the first of two overs. -/
theorem advance_preserves_position_ranges_witness :
    0 ≤ (calculateNextPosition { inning := 1, over := 0, ball := 6 } 2 4).nextPosition.over ∧
      (calculateNextPosition { inning := 1, over := 0, ball := 6 } 2 4).nextPosition.over < 2 ∧
      1 ≤ (calculateNextPosition { inning := 1, over := 0, ball := 6 } 2 4).nextPosition.ball ∧
      (calculateNextPosition { inning := 1, over := 0, ball := 6 } 2 4).nextPosition.ball ≤ 6 :=
  advance_preserves_position_ranges { inning := 1, over := 0, ball := 6 } 2 4
    (by decide) (by decide) (by decide) (by decide) (by decide) (by decide) (by decide)

/-! ## Lemmas about the scoring session stages -/

/-- `posOf` written out on its fields. -/
lemma posOf_mk (s : SessionState) :
    posOf s = { inning := s.newInning, over := s.newOver, ball := s.newBall } := rfl

/-- `canAddBall` on an explicit position literal. -/
lemma canAddBall_mk (i q b T : Int) :
    canAddBall { inning := i, over := q, ball := b } T =
      if i > 2 then false else if i = 2 ∧ q ≥ T ∧ b ≥ 6 then false else true := rfl

lemma recordBall_posOf (cfg : MatchConfig) (s : SessionState) :
    posOf (recordBall cfg s) =
      (calculateNextPosition (posOf s) cfg.totalOvers (totalRunsOf s)).nextPosition := rfl

lemma swapStage_posOf (cfg : MatchConfig) (s : SessionState) :
    posOf (swapStage cfg s) =
      (calculateNextPosition (posOf s) cfg.totalOvers (totalRunsOf s)).nextPosition := by
  unfold swapStage
  split_ifs <;> rfl

lemma swapStage_scores (cfg : MatchConfig) (s : SessionState) :
    (swapStage cfg s).scores = s.scores ++ [mkScore s] := by
  unfold swapStage
  split_ifs <;> rfl

lemma swapStage_lastScore (cfg : MatchConfig) (s : SessionState) :
    (swapStage cfg s).lastScore = some (mkScore s) := by
  unfold swapStage
  split_ifs <;> rfl

lemma swapStage_batsmanStats (cfg : MatchConfig) (s : SessionState) :
    (swapStage cfg s).batsmanStats = s.batsmanStats := by
  unfold swapStage
  split_ifs <;> rfl

lemma swapStage_bowlerStats (cfg : MatchConfig) (s : SessionState) :
    (swapStage cfg s).bowlerStats = s.bowlerStats := by
  unfold swapStage
  split_ifs <;> rfl

lemma inningsCompleteStage_posOf (s x : SessionState) :
    posOf (inningsCompleteStage s x) = posOf x := rfl

lemma overCompleteStage_posOf (s x : SessionState) :
    posOf (overCompleteStage s x) = posOf x := rfl

lemma overCompleteStage_previousBowler (s x : SessionState) :
    (overCompleteStage s x).previousBowler = some s.selectedBowler := rfl

lemma resetFormStage_posOf (x : SessionState) :
    posOf (resetFormStage x) = posOf x := rfl

lemma batStatsStage_posOf (s x : SessionState) :
    posOf (batStatsStage s x) = posOf x := by
  unfold batStatsStage
  split_ifs <;> rfl

lemma bowlStatsStage_posOf (s x : SessionState) :
    posOf (bowlStatsStage s x) = posOf x := rfl

lemma bowlStatsStage_batsmanStats (s x : SessionState) :
    (bowlStatsStage s x).batsmanStats = x.batsmanStats := rfl

lemma wicketStage_posOf (s x : SessionState) :
    posOf (wicketStage s x) = posOf x := by
  unfold wicketStage
  split
  · split_ifs <;> rfl
  · rfl

lemma wicketStage_batsmanStats (s x : SessionState) :
    (wicketStage s x).batsmanStats = x.batsmanStats := by
  unfold wicketStage resetFormStage
  split
  · split_ifs <;> rfl
  · rfl

/-- The batsman panel entry of the striker after the incremental update:
runs and balls grow exactly when the delivery counts as faced. -/
lemma batStatsStage_batsmanStats_striker (s x : SessionState) :
    (batStatsStage s x).batsmanStats s.selectedBatsman =
      (if ballFacedUpdate s.scoringExtras then
        { runs := (x.batsmanStats s.selectedBatsman).runs + s.scoringRuns
          balls := (x.batsmanStats s.selectedBatsman).balls + 1 }
      else x.batsmanStats s.selectedBatsman) := by
  unfold batStatsStage
  split_ifs <;> simp

/-- Every branch of `applyScore` carries the position computed by
`calculateNextPosition` (the position is set before any branch-specific
effect and never touched again). -/
lemma applyScore_posOf (cfg : MatchConfig) (s : SessionState) :
    posOf (applyScore cfg s) =
      (calculateNextPosition (posOf s) cfg.totalOvers (totalRunsOf s)).nextPosition := by
  unfold applyScore
  split_ifs <;>
    simp only [inningsCompleteStage_posOf, overCompleteStage_posOf, resetFormStage_posOf,
      wicketStage_posOf, bowlStatsStage_posOf, batStatsStage_posOf, swapStage_posOf]

/-- When the advance signals the end of the innings, `addScore` takes the
innings-complete branch. -/
lemma applyScore_of_inningsComplete (cfg : MatchConfig) (s : SessionState)
    (hic : (calculateNextPosition (posOf s) cfg.totalOvers
        (totalRunsOf s)).teamSwitch.isInningComplete = true) :
    applyScore cfg s = inningsCompleteStage s (swapStage cfg s) := by
  unfold applyScore
  rw [if_pos hic]

/-- When the advance signals an over switch but not the end of the innings,
`addScore` takes the end-of-over branch. -/
lemma applyScore_of_overComplete (cfg : MatchConfig) (s : SessionState)
    (hic : (calculateNextPosition (posOf s) cfg.totalOvers
        (totalRunsOf s)).teamSwitch.isInningComplete = false)
    (hsw : (calculateNextPosition (posOf s) cfg.totalOvers
        (totalRunsOf s)).teamSwitch.shouldSwitchTeams = true) :
    applyScore cfg s = overCompleteStage s (swapStage cfg s) := by
  unfold applyScore
  rw [if_neg (by rw [hic]; exact Bool.false_ne_true), if_pos hsw]

/-- When no transition signal fires, `addScore` reaches the stat updates
and the wicket dispatch. -/
lemma applyScore_of_noSignals (cfg : MatchConfig) (s : SessionState)
    (hic : (calculateNextPosition (posOf s) cfg.totalOvers
        (totalRunsOf s)).teamSwitch.isInningComplete = false)
    (hsw : (calculateNextPosition (posOf s) cfg.totalOvers
        (totalRunsOf s)).teamSwitch.shouldSwitchTeams = false)
    (hmc : (calculateNextPosition (posOf s) cfg.totalOvers
        (totalRunsOf s)).teamSwitch.isMatchComplete = false) :
    applyScore cfg s = wicketStage s (bowlStatsStage s (batStatsStage s (swapStage cfg s))) := by
  unfold applyScore
  rw [if_neg (by rw [hic]; exact Bool.false_ne_true),
    if_neg (by rw [hsw]; exact Bool.false_ne_true),
    if_neg (by rw [hmc]; exact Bool.false_ne_true)]

/-- All five validation guards of `addScore` passing makes it succeed with
the `applyScore` tail. -/
lemma addScore_ok (cfg : MatchConfig) (s : SessionState)
    (hsel : ¬ (s.selectedBatsman = "" ∨ s.nonStriker = "" ∨ s.selectedBowler = ""))
    (hbat : s.selectedBatsman ∈ cfg.battingTeam ∧ s.nonStriker ∈ cfg.battingTeam)
    (hbowl : s.selectedBowler ∈ cfg.bowlingTeam)
    (hcan : canAddBall (posOf s) cfg.totalOvers = true)
    (hval : validateScoring s = true) :
    addScore cfg s = Except.ok (applyScore cfg s) := by
  unfold addScore
  rw [if_neg hsel, if_neg (not_not_intro hbat), if_neg (not_not_intro hbowl),
    if_neg (not_not_intro hcan), if_neg (not_not_intro hval)]

/-! ## Claim theorems: scoring session -/

/-- C1 (counterexample): applying a wide from a fresh session advances the
position from over 0 ball 1 to over 0 ball 2 — the ball counter does move,
the delivery is not re-bowled at the same position, contrary to the claim
that wide / no-ball deliveries do not advance it. -/
theorem wide_ball_advances_counterexample :
    ((submitBall demoConfig demoSession wideBall).toOption.map (fun s =>
        (s.newInning, s.newOver, s.newBall))) = some (1, 0, 2) ∧
      ¬ (((submitBall demoConfig demoSession wideBall).toOption.map (fun s => s.newBall))
          = some 1) := by
  decide

/-- C1 (amended): every accepted delivery, whatever its extra kind
(including wide and no_ball — no hypothesis constrains `scoringExtras`),
advances the position by exactly one ball when taken mid-over; the code has
no legal-ball distinction for over progression. -/
theorem accepted_delivery_always_advances (cfg : MatchConfig) (s : SessionState)
    (hsel : ¬ (s.selectedBatsman = "" ∨ s.nonStriker = "" ∨ s.selectedBowler = ""))
    (hbat : s.selectedBatsman ∈ cfg.battingTeam ∧ s.nonStriker ∈ cfg.battingTeam)
    (hbowl : s.selectedBowler ∈ cfg.bowlingTeam)
    (hval : validateScoring s = true)
    (hi : s.newInning ≤ 2) (hb1 : 1 ≤ s.newBall) (hb5 : s.newBall ≤ 5)
    (ho : s.newOver < cfg.totalOvers) :
    addScore cfg s = Except.ok (applyScore cfg s) ∧
      (applyScore cfg s).newInning = s.newInning ∧
      (applyScore cfg s).newOver = s.newOver ∧
      (applyScore cfg s).newBall = s.newBall + 1 := by
  have hcan : canAddBall (posOf s) cfg.totalOvers = true := by
    rw [posOf_mk, canAddBall_mk]
    split_ifs <;> first | rfl | omega
  have hpos : posOf (applyScore cfg s) =
      { inning := s.newInning, over := s.newOver, ball := s.newBall + 1 } := by
    rw [applyScore_posOf, posOf_mk, calcNext_pos_mid _ _ _ _ _ (by omega) ho]
  exact ⟨addScore_ok cfg s hsel hbat hbowl hcan hval,
    congrArg OverPosition.inning hpos, congrArg OverPosition.over hpos,
    congrArg OverPosition.ball hpos⟩

/-- Witness for the amended C1 at a concrete wide delivery: the wide is
accepted and moves the session from ball 1 to ball 2. -/
theorem accepted_delivery_always_advances_witness :
    addScore demoConfig wideSession = Except.ok (applyScore demoConfig wideSession) ∧
      (applyScore demoConfig wideSession).newInning = wideSession.newInning ∧
      (applyScore demoConfig wideSession).newOver = wideSession.newOver ∧
      (applyScore demoConfig wideSession).newBall = wideSession.newBall + 1 :=
  accepted_delivery_always_advances demoConfig wideSession (by decide) (by decide) (by decide)
    (by decide) (by decide) (by decide) (by decide) (by decide)

/-- C3 (counterexample): on the twelfth delivery of a two-over innings
(position over 1 ball 6), `calculateNextPosition` raises `isInningComplete`
but not the end-of-over signal `shouldSwitchTeams` — the claimed
"endOfOver and inningComplete together" does not hold, because the over
counter has been reset to 0 before `shouldSwitchTeams` compares it with the
previous over. -/
theorem ball12_no_end_of_over_signal :
    (calculateNextPosition { inning := 1, over := 1, ball := 6 } 2 0).teamSwitch.shouldSwitchTeams
        = false ∧
      (calculateNextPosition { inning := 1, over := 1, ball := 6 } 2 0).teamSwitch.isInningComplete
        = true := by
  decide

/-- C3 (amended): in the totalOvers = 2 scenario of eleven dot balls and a
bowled wicket on delivery 12, delivery 6 raises the end-of-over signal only
(the session opens the bowler dialog at over 1 ball 1), and delivery 12
raises `isInningComplete` but not `shouldSwitchTeams`; the session then
opens the start-second-inning prompt (resolving to new-innings openers) and
in particular does not open the new-batsman dialog for the wicket —
innings-complete handling takes priority. -/
theorem two_over_scenario :
    (calculateNextPosition { inning := 1, over := 0, ball := 6 } 2 0).teamSwitch =
      { shouldSwitchTeams := true, shouldAskForNewBatsmen := false,
        shouldAskForNewBowler := true, isInningComplete := false, isMatchComplete := false } ∧
      (calculateNextPosition { inning := 1, over := 1, ball := 6 } 2 0).teamSwitch =
        { shouldSwitchTeams := false, shouldAskForNewBatsmen := true,
          shouldAskForNewBowler := true, isInningComplete := true, isMatchComplete := false } ∧
      (firstOverTrace.toOption.map (fun s =>
          (s.showBowlerSelector, s.showStartSecondInning, s.showNewBatsmanSelector,
           s.newInning, s.newOver, s.newBall)))
        = some (true, false, false, 1, 1, 1) ∧
      (twoOverTrace.toOption.map (fun s =>
          (s.showStartSecondInning, s.showNewBatsmanSelector, s.showBowlerSelector,
           s.showFielderSelector)))
        = some (true, false, false, false) ∧
      (twoOverTrace.toOption.map (fun s => (s.newInning, s.newOver, s.newBall)))
        = some (2, 0, 1) :=
  ⟨by decide, by decide, by decide, by decide, by decide⟩

/-- C4: a declared wicket of any kind other than run_out together with
positive bat runs makes `addScore` fail with the illegal-scoring-combination
error before the event is inserted (the failing call returns no new state:
nothing is appended to the log and neither position nor stats change),
while a bowled wicket with zero runs and a run_out wicket with two runs
both pass validation and are applied. -/
theorem wicket_runs_validation (cfg : MatchConfig) (s1 s2 s3 : SessionState)
    (w1 : Wicket) (hw1 : s1.scoringWicket = some w1)
    (hk1 : w1.kind ≠ WicketKind.run_out) (hr1 : s1.scoringRuns > 0)
    (hsel1 : ¬ (s1.selectedBatsman = "" ∨ s1.nonStriker = "" ∨ s1.selectedBowler = ""))
    (hbat1 : s1.selectedBatsman ∈ cfg.battingTeam ∧ s1.nonStriker ∈ cfg.battingTeam)
    (hbowl1 : s1.selectedBowler ∈ cfg.bowlingTeam)
    (hcan1 : canAddBall (posOf s1) cfg.totalOvers = true)
    (w2 : Wicket) (hw2 : s2.scoringWicket = some w2)
    (hk2 : w2.kind = WicketKind.bowled) (hr2 : s2.scoringRuns = 0)
    (hsel2 : ¬ (s2.selectedBatsman = "" ∨ s2.nonStriker = "" ∨ s2.selectedBowler = ""))
    (hbat2 : s2.selectedBatsman ∈ cfg.battingTeam ∧ s2.nonStriker ∈ cfg.battingTeam)
    (hbowl2 : s2.selectedBowler ∈ cfg.bowlingTeam)
    (hcan2 : canAddBall (posOf s2) cfg.totalOvers = true)
    (w3 : Wicket) (hw3 : s3.scoringWicket = some w3)
    (hk3 : w3.kind = WicketKind.run_out) (hr3 : s3.scoringRuns = 2)
    (hsel3 : ¬ (s3.selectedBatsman = "" ∨ s3.nonStriker = "" ∨ s3.selectedBowler = ""))
    (hbat3 : s3.selectedBatsman ∈ cfg.battingTeam ∧ s3.nonStriker ∈ cfg.battingTeam)
    (hbowl3 : s3.selectedBowler ∈ cfg.bowlingTeam)
    (hcan3 : canAddBall (posOf s3) cfg.totalOvers = true) :
    addScore cfg s1 = Except.error ScoringError.illegalScoringCombination ∧
      addScore cfg s2 = Except.ok (applyScore cfg s2) ∧
      addScore cfg s3 = Except.ok (applyScore cfg s3) := by
  refine ⟨?_, ?_, ?_⟩
  · have hvf : validateScoring s1 = false := by
      unfold validateScoring
      rw [hw1]
      exact if_pos ⟨hr1, hk1⟩
    unfold addScore
    rw [if_neg hsel1, if_neg (not_not_intro hbat1), if_neg (not_not_intro hbowl1),
      if_neg (not_not_intro hcan1),
      if_pos (by rw [hvf]; exact Bool.false_ne_true)]
  · refine addScore_ok cfg s2 hsel2 hbat2 hbowl2 hcan2 ?_
    unfold validateScoring
    rw [hw2]
    exact if_neg (by rw [hr2, hk2]; rintro ⟨h, -⟩; omega)
  · refine addScore_ok cfg s3 hsel3 hbat3 hbowl3 hcan3 ?_
    unfold validateScoring
    rw [hw3]
    exact if_neg (by rw [hk3]; rintro ⟨-, h⟩; exact h rfl)

/-- Witness for C4 at concrete sessions: bowled with 2 runs is rejected as
an illegal scoring combination, bowled with 0 runs and run_out with 2 runs
are accepted. -/
theorem wicket_runs_validation_witness :
    addScore demoConfig bowledRunsSession
        = Except.error ScoringError.illegalScoringCombination ∧
      addScore demoConfig bowledCleanSession
        = Except.ok (applyScore demoConfig bowledCleanSession) ∧
      addScore demoConfig runOutRunsSession
        = Except.ok (applyScore demoConfig runOutRunsSession) :=
  wicket_runs_validation demoConfig bowledRunsSession bowledCleanSession runOutRunsSession
    { kind := WicketKind.bowled, batsman_id := "A", fielder_id := none } (by decide)
    (by decide) (by decide) (by decide) (by decide) (by decide) (by decide)
    { kind := WicketKind.bowled, batsman_id := "A", fielder_id := none } (by decide)
    (by decide) (by decide) (by decide) (by decide) (by decide) (by decide)
    { kind := WicketKind.run_out, batsman_id := "A", fielder_id := none } (by decide)
    (by decide) (by decide) (by decide) (by decide) (by decide) (by decide)

/-- C5 (code bug): after six dot balls by bowler X, the incremental panel
credits X with only 5 balls, because the over-completing sixth delivery
returns from `addScore` before the stat update; `undoLastBall` nevertheless
subtracts a ball, leaving 4 — the prior value 5 is not restored, so
apply-then-undo is not the identity on stats for over-completing
deliveries.  The event removal, selector closing and position retention
(over 1 ball 1 both before and after the undo) do behave as claimed. -/
theorem undo_after_over_completing_ball_divergence :
    (firstOverTrace.toOption.map (fun s => ((s.bowlerStats "X").balls, s.scores.length)))
        = some (5, 6) ∧
      ((firstOverTrace.toOption.bind (fun s => (undoLastBall s).toOption)).map
          (fun t => ((t.bowlerStats "X").balls, t.newInning, t.newOver, t.newBall)))
        = some (4, 1, 1, 1) ∧
      ((firstOverTrace.toOption.bind (fun s => (undoLastBall s).toOption)).map
          (fun t => (t.showBowlerSelector, t.showNewBatsmanSelector, t.scores.length)))
        = some (false, false, 5) :=
  ⟨by decide, by decide, by decide⟩

/-- C6 (code bug): a single wide delivery drives the incremental bowler
panel to one ball bowled, while recomputing the same panel from the
persisted rows (the `recomputePanelsFromDb` rules) yields zero legal
deliveries — the incremental path and the rehydration path disagree. -/
theorem incremental_vs_recompute_divergence :
    ((submitBall demoConfig demoSession wideBall).toOption.map (fun s =>
        (s.bowlerStats "X", recomputeBowlerStats s.scores 1 "X")))
      = some ({ balls := 1, runs := 1, wickets := 0 },
              { balls := 0, runs := 1, wickets := 0 }) ∧
      ({ balls := 1, runs := 1, wickets := 0 } : BowlStats)
        ≠ { balls := 0, runs := 1, wickets := 0 } := by
  refine ⟨by decide, by decide⟩

/-- C7 (counterexample): a no-ball is not a wide, so the claim says the
striker's balls-faced count increments; the code leaves it at 0. -/
theorem no_ball_not_counted_as_ball_faced :
    ((submitBall demoConfig demoSession noBallDelivery).toOption.map (fun s =>
        (s.batsmanStats "A").balls)) = some 0 ∧
      ¬ (((submitBall demoConfig demoSession noBallDelivery).toOption.map (fun s =>
        (s.batsmanStats "A").balls)) = some 1) := by
  refine ⟨by decide, by decide⟩

/-- C7 (amended): on a mid-over delivery (no transition signal), the
striker's balls-faced count increments exactly when the delivery has no
extra or a bye / leg-bye extra; in particular neither a wide nor a no-ball
counts as a ball faced. -/
theorem balls_faced_update_condition (cfg : MatchConfig) (s : SessionState)
    (hsel : ¬ (s.selectedBatsman = "" ∨ s.nonStriker = "" ∨ s.selectedBowler = ""))
    (hbat : s.selectedBatsman ∈ cfg.battingTeam ∧ s.nonStriker ∈ cfg.battingTeam)
    (hbowl : s.selectedBowler ∈ cfg.bowlingTeam)
    (hcan : canAddBall (posOf s) cfg.totalOvers = true)
    (hval : validateScoring s = true)
    (hic : (calculateNextPosition (posOf s) cfg.totalOvers
        (totalRunsOf s)).teamSwitch.isInningComplete = false)
    (hsw : (calculateNextPosition (posOf s) cfg.totalOvers
        (totalRunsOf s)).teamSwitch.shouldSwitchTeams = false)
    (hmc : (calculateNextPosition (posOf s) cfg.totalOvers
        (totalRunsOf s)).teamSwitch.isMatchComplete = false) :
    addScore cfg s = Except.ok (applyScore cfg s) ∧
      ((applyScore cfg s).batsmanStats s.selectedBatsman).balls =
        (s.batsmanStats s.selectedBatsman).balls +
          (if ballFacedUpdate s.scoringExtras then 1 else 0) ∧
      (∀ r : Int, ballFacedUpdate (some { kind := ExtraKind.wide, runs := r }) = false) ∧
      (∀ r : Int, ballFacedUpdate (some { kind := ExtraKind.no_ball, runs := r }) = false) ∧
      ballFacedUpdate none = true := by
  have heq := applyScore_of_noSignals cfg s hic hsw hmc
  refine ⟨addScore_ok cfg s hsel hbat hbowl hcan hval, ?_, fun r => rfl, fun r => rfl, rfl⟩
  rw [heq, wicketStage_batsmanStats, bowlStatsStage_batsmanStats,
    batStatsStage_batsmanStats_striker, swapStage_batsmanStats]
  split_ifs <;> simp

/-- Witness for the amended C7 at a concrete no-ball: the delivery is
accepted and the striker's balls faced stay at 0 + 0. -/
theorem balls_faced_update_condition_witness :
    addScore demoConfig noBallSession = Except.ok (applyScore demoConfig noBallSession) ∧
      ((applyScore demoConfig noBallSession).batsmanStats noBallSession.selectedBatsman).balls =
        (noBallSession.batsmanStats noBallSession.selectedBatsman).balls +
          (if ballFacedUpdate noBallSession.scoringExtras then 1 else 0) ∧
      (∀ r : Int, ballFacedUpdate (some { kind := ExtraKind.wide, runs := r }) = false) ∧
      (∀ r : Int, ballFacedUpdate (some { kind := ExtraKind.no_ball, runs := r }) = false) ∧
      ballFacedUpdate none = true :=
  balls_faced_update_condition demoConfig noBallSession (by decide) (by decide) (by decide)
    (by decide) (by decide) (by decide) (by decide) (by decide)

/-- C10: when a delivery ends the over without ending the innings,
`addScore` records the current bowler as `previousBowler` and that bowler
is filtered out of `getAvailableBowlers`, the candidate list backing the
next over's bowler dialog — the same bowler cannot be selected for two
consecutive overs. -/
theorem previous_bowler_excluded_next_over (cfg : MatchConfig) (s : SessionState)
    (hsel : ¬ (s.selectedBatsman = "" ∨ s.nonStriker = "" ∨ s.selectedBowler = ""))
    (hbat : s.selectedBatsman ∈ cfg.battingTeam ∧ s.nonStriker ∈ cfg.battingTeam)
    (hbowl : s.selectedBowler ∈ cfg.bowlingTeam)
    (hcan : canAddBall (posOf s) cfg.totalOvers = true)
    (hval : validateScoring s = true)
    (hic : (calculateNextPosition (posOf s) cfg.totalOvers
        (totalRunsOf s)).teamSwitch.isInningComplete = false)
    (hsw : (calculateNextPosition (posOf s) cfg.totalOvers
        (totalRunsOf s)).teamSwitch.shouldSwitchTeams = true) :
    addScore cfg s = Except.ok (applyScore cfg s) ∧
      (applyScore cfg s).previousBowler = some s.selectedBowler ∧
      s.selectedBowler ∉ getAvailableBowlers cfg.bowlingTeam (applyScore cfg s) := by
  have heq := applyScore_of_overComplete cfg s hic hsw
  refine ⟨addScore_ok cfg s hsel hbat hbowl hcan hval, ?_, ?_⟩
  · rw [heq]; rfl
  · rw [heq]
    intro hmem
    rw [getAvailableBowlers, List.mem_filter] at hmem
    have h2 := hmem.2
    rw [overCompleteStage_previousBowler] at h2
    simp at h2

/-- Witness for C10: bowler X ends the first over with a dot ball; X
becomes the previous bowler and is missing from the candidate list. -/
theorem previous_bowler_excluded_next_over_witness :
    addScore demoConfig lastBallSession = Except.ok (applyScore demoConfig lastBallSession) ∧
      (applyScore demoConfig lastBallSession).previousBowler
        = some lastBallSession.selectedBowler ∧
      lastBallSession.selectedBowler
        ∉ getAvailableBowlers demoConfig.bowlingTeam (applyScore demoConfig lastBallSession) :=
  previous_bowler_excluded_next_over demoConfig lastBallSession (by decide) (by decide)
    (by decide) (by decide) (by decide) (by decide) (by decide)
